import Mathlib

/-! Verification of the table-status endpoint and JWT auth gate of the
food-ordering backend (`src/server.py`), via a shallow embedding.

The embedding models:
* `token_required` — the decorator that extracts a bearer token from the
  `Authorization` header (`header.split(" ")[1]`), decodes it, and either
  rejects with a 401 JSON response or forwards to the wrapped handler with
  the `user_id` and `role` claims attached;
* `update_table_status` — the `PUT /api/tables/<int:table_number>/status`
  handler: role check, body validation, and the single
  `UPDATE tables SET status = %s WHERE table_number = %s RETURNING *`
  statement with commit/rollback semantics.

External effects are made explicit: JWT decoding is a parameter
`decode : String → JwtOutcome` (the behaviour of `jwt.decode` on each token
string), and the database is a list of rows plus a `DbEvent` saying whether
the connection/execution succeeds or raises `psycopg2.Error`.
Unhandled Python exceptions escaping the handler (which Flask turns into a
generic 500) are modelled as `Response.pyError`.
-/

namespace FoodOrdering

/-- A JSON value as it appears in a request body or a JWT claim
(objects/arrays are not needed by any handler path we model). -/
inductive JsonVal where
  | null
  | str (s : String)
  | num (n : Int)
  | bool (b : Bool)
deriving DecidableEq, Repr

/-- Python truthiness of a JSON value: `None`, `""`, `0` and `False`
are falsy.  Used by `if not new_status:` in `update_table_status`. -/
def JsonVal.falsy : JsonVal → Bool
  | .null => true
  | .str s => s = ""
  | .num n => n = 0
  | .bool b => !b

/-- A row of the `tables` table: `(table_number SERIAL PRIMARY KEY,
status VARCHAR(50))`, in the schema's column order, so that
`row[0] = table_number` and `row[1] = status`. -/
structure TableRow where
  table_number : Int
  status : String
deriving DecidableEq, Repr

/-- Outcome of `jwt.decode(token, SECRET_KEY, algorithms=["HS256"])`:
either the decoded claims dict, or `jwt.ExpiredSignatureError`, or
`jwt.InvalidTokenError` (malformed token / bad signature / wrong algorithm). -/
inductive JwtOutcome where
  | ok (claims : List (String × JsonVal))
  | expired
  | invalid
deriving DecidableEq, Repr

/-- Python dict access `claims[k]` as an option (None ⇒ `KeyError`). -/
def lookupClaim (claims : List (String × JsonVal)) (k : String) : Option JsonVal :=
  (claims.find? fun p => p.1 = k).map Prod.snd

/-- What the `token_required` decorator does before (or instead of)
invoking the wrapped handler. -/
inductive GateResult where
  /-- Reject: a 401 JSON body whose message is "Token is missing!". -/
  | missing401
  /-- Reject: a 401 JSON body whose message is "Token has expired!". -/
  | expired401
  /-- Reject: a 401 JSON body whose message is "Invalid Token!". -/
  | invalid401
  /-- Indexing the split header at position 1 raised `IndexError`
  (fewer than two space-separated parts); the exception is unhandled. -/
  | indexError
  /-- Reading the `user_id` or `role` claim from the decoded payload
  raised `KeyError` (claim absent); the exception is unhandled. -/
  | keyError
  /-- The wrapped handler is invoked with these claims attached to the
  request (`request.user_id`, `request.user_role`). -/
  | handler (user_id : JsonVal) (user_role : JsonVal)
deriving DecidableEq, Repr

/-- Split a character list at each space, keeping empty segments —
the semantics of Python `str.split(" ")` with an explicit separator.
`acc` holds the (reversed) characters of the current segment. -/
def splitSpacesAux : List Char → List Char → List String
  | [], acc => [String.mk acc.reverse]
  | c :: cs, acc =>
    if c = ' ' then String.mk acc.reverse :: splitSpacesAux cs []
    else splitSpacesAux cs (c :: acc)

/-- Python `h.split(" ")`: e.g. `"a b"` ↦ `["a", "b"]`, `"a  b"` ↦
`["a", "", "b"]`, `""` ↦ `[""]`, `"a "` ↦ `["a", ""]`. -/
def pySplitSpace (h : String) : List String :=
  splitSpacesAux h.data []

/-- Position 1 of the space-split header, as in the decorator's
token extraction; `none` means Python raises `IndexError`. -/
def extractToken (h : String) : Option String :=
  (pySplitSpace h).get? 1

/-- The `token_required` decorator from `src/server.py`:
take the second space-separated part of the `Authorization` header as the
token (no check that the first part is `Bearer`), reject falsy tokens with
401, decode, reject expired/invalid tokens with 401, then read the
`user_id` and `role` claims and forward to the handler. -/
def token_required (decode : String → JwtOutcome) (header : Option String) :
    GateResult :=
  match header with
  | none => .missing401
  | some h =>
    match extractToken h with
    | none => .indexError
    | some tok =>
      if tok = "" then .missing401
      else
        match decode tok with
        | .expired => .expired401
        | .invalid => .invalid401
        | .ok claims =>
          match lookupClaim claims "user_id", lookupClaim claims "role" with
          | some uid, some role => .handler uid role
          | _, _ => .keyError

/-- Whether the per-request storage interaction succeeds or raises. -/
inductive DbEvent where
  /-- The call to `get_db_connection` raises `psycopg2.OperationalError`
  (a subclass of `psycopg2.Error`), so `conn` stays `None`. -/
  | connectFail
  /-- A statement, fetch, or commit on an established connection raises
  `psycopg2.Error`. -/
  | execFail
  /-- Connection, statement and commit all succeed. -/
  | ok
deriving DecidableEq, Repr

/-- A JSON response body produced by the endpoint or the gate. -/
inductive RespBody where
  /-- A body with a single `message` field: the auth gate's 401 bodies. -/
  | message (s : String)
  /-- A body with a single `error` field: the handler's error bodies. -/
  | error (s : String)
  /-- The 200 body with `message`, `table_number`, and `status` fields,
  the last two built from positions 0 and 1 of the fetched row. -/
  | tableUpdated (message : String) (table_number : Int) (status : String)
deriving DecidableEq, Repr

/-- The observable outcome of a request: a JSON response with an HTTP
status code, or an unhandled Python exception escaping the handler
(Flask then produces its own generic 500 page). -/
inductive Response where
  | json (status : Nat) (body : RespBody)
  | pyError (exn : String)
deriving DecidableEq, Repr

/-- The HTTP status code of a JSON response (`none` for an unhandled
exception, whose status is supplied by the framework, not the handler). -/
def Response.statusCode : Response → Option Nat
  | .json s _ => some s
  | .pyError _ => none

/-- The handler's list of allowed statuses: available, occupied,
cleaning, reserved. -/
def allowed_statuses : List String :=
  ["available", "occupied", "cleaning", "reserved"]

/-- The 400 message enumerating the valid set, built by joining
`allowed_statuses` with a comma, as the handler's f-string does. -/
def invalidStatusMsg : String :=
  "Invalid status. Allowed statuses are: " ++
    String.intercalate ", " allowed_statuses

/-- The 200 message interpolating the table number and new status. -/
def updatedMsg (tn : Int) (s : String) : String :=
  "Table " ++ toString tn ++ " status updated to " ++ s

/-- The 404 message interpolating the table number. -/
def notFoundMsg (tn : Int) : String :=
  "Table " ++ toString tn ++ " not found"

/-- The generic storage-failure body, with no driver detail. -/
def dbErrorMsg : String :=
  "Failed to update table status due to a database error."

/-- Effect of `UPDATE tables SET status = %s WHERE table_number = %s`
on the row set: every row matching the table number gets the new status. -/
def updateRows (tables : List TableRow) (tn : Int) (s : String) :
    List TableRow :=
  tables.map fun r =>
    if r.table_number == tn then { r with status := s } else r

/-- The `try:` block of `update_table_status`: connect, run the single
`UPDATE ... RETURNING *`, `fetchone()`, commit; rollback on
`psycopg2.Error`.  With `conn = None` after a connection failure,
`conn.rollback()` in the `except psycopg2.Error` branch raises
`AttributeError`, which no later `except` of the same `try` catches. -/
def runUpdate (s : String) (tn : Int) (db : DbEvent)
    (tables : List TableRow) : Response × List TableRow :=
  match db with
  | .connectFail => (.pyError "AttributeError", tables)
  | .execFail => (.json 500 (.error dbErrorMsg), tables)
  | .ok =>
    let newTables := updateRows tables tn s
    match (newTables.filter fun r => r.table_number == tn).head? with
    | some row =>
      (.json 200 (.tableUpdated (updatedMsg tn s) row.table_number row.status),
        newTables)
    | none => (.json 404 (.error (notFoundMsg tn)), newTables)

/-- The body of `update_table_status` (after `token_required` attached
`user_role`): role check, `data.get('status')`, the `if not new_status`
falsiness check, the `not in allowed_statuses` membership check, then the
storage interaction.  `statusField` is what `data.get('status')` returns
(`none` = the key is absent, so Python `None`). -/
def update_table_status (user_role : JsonVal) (statusField : Option JsonVal)
    (tn : Int) (db : DbEvent) (tables : List TableRow) :
    Response × List TableRow :=
  if user_role = JsonVal.str "waiter" ∨ user_role = JsonVal.str "admin" then
    match statusField with
    | none => (.json 400 (.error "Status is required"), tables)
    | some v =>
      if v.falsy then (.json 400 (.error "Status is required"), tables)
      else
        match v with
        | .str s =>
          if s ∈ allowed_statuses then runUpdate s tn db tables
          else (.json 400 (.error invalidStatusMsg), tables)
        | _ => (.json 400 (.error invalidStatusMsg), tables)
  else
    (.json 403
      (.error "Unauthorized: Only waiters or admins can update table status"),
      tables)

/-- The full endpoint `PUT /api/tables/<tn>/status`: the `token_required`
gate followed, on success, by `update_table_status` with the attached role. -/
def handle_update_table_status (decode : String → JwtOutcome)
    (header : Option String) (statusField : Option JsonVal)
    (tn : Int) (db : DbEvent) (tables : List TableRow) :
    Response × List TableRow :=
  match token_required decode header with
  | .missing401 => (.json 401 (.message "Token is missing!"), tables)
  | .expired401 => (.json 401 (.message "Token has expired!"), tables)
  | .invalid401 => (.json 401 (.message "Invalid Token!"), tables)
  | .indexError => (.pyError "IndexError", tables)
  | .keyError => (.pyError "KeyError", tables)
  | .handler _ role => update_table_status role statusField tn db tables

/-- A concrete `jwt.decode` behaviour used to instantiate witnesses:
four known tokens, everything else malformed. -/
def decodeSample : String → JwtOutcome := fun t =>
  if t = "waiterTok" then
    .ok [("user_id", .num 1), ("role", .str "waiter")]
  else if t = "adminTok" then
    .ok [("user_id", .num 2), ("role", .str "admin")]
  else if t = "chefTok" then
    .ok [("user_id", .num 3), ("role", .str "chef")]
  else if t = "oldTok" then .expired
  else .invalid

/-! Helper lemmas about the effect of the UPDATE statement. -/

/-- Every post-update row matching the targeted table number carries the
new status. -/
theorem updateRows_matched_status {tables : List TableRow} {tn : Int}
    {s : String} {r : TableRow} (hr : r ∈ updateRows tables tn s)
    (htn : r.table_number = tn) : r.status = s := by
  simp only [updateRows] at hr
  rcases List.mem_map.mp hr with ⟨r0, _, rfl⟩
  by_cases hb : (r0.table_number == tn) = true
  · simp [hb]
  · simp [hb] at htn
    exact absurd (beq_iff_eq.mpr htn) hb

/-- A pre-update row matching the targeted table number appears
post-update with the new status. -/
theorem mem_updateRows_of_mem {tables : List TableRow} {tn : Int}
    {s : String} {r : TableRow} (hr : r ∈ tables)
    (htn : r.table_number = tn) :
    ({ r with status := s } : TableRow) ∈ updateRows tables tn s := by
  simp only [updateRows]
  refine List.mem_map.mpr ⟨r, hr, ?_⟩
  simp [htn]

/-- When no row matches the targeted table number, the UPDATE is the
identity on the row set. -/
theorem updateRows_frame (tables : List TableRow) (tn : Int) (s : String)
    (h : ∀ r ∈ tables, r.table_number ≠ tn) :
    updateRows tables tn s = tables := by
  induction tables with
  | nil => rfl
  | cons a l ih =>
    have ha : (a.table_number == tn) = false :=
      beq_eq_false_iff_ne.mpr (h a (List.mem_cons_self a l))
    have hl := ih fun r hr => h r (List.mem_cons_of_mem a hr)
    show (if (a.table_number == tn) = true then { a with status := s } else a)
        :: updateRows l tn s = a :: l
    rw [ha, hl]
    simp

/-- When no row matches the targeted table number, the RETURNING set is
empty. -/
theorem updateRows_filter_nil (tables : List TableRow) (tn : Int)
    (s : String) (h : ∀ r ∈ tables, r.table_number ≠ tn) :
    (updateRows tables tn s).filter (fun r => r.table_number == tn) = [] := by
  rw [updateRows_frame tables tn s h]
  exact List.filter_eq_nil_iff.mpr fun r hr => by simp [h r hr]

/-- A successful connection with a matching row produces the 200 response
built from the targeted table number and the new status, alongside the
updated row set. -/
theorem runUpdate_found (tables : List TableRow) (tn : Int) (s : String)
    (hfound : ∃ r ∈ tables, r.table_number = tn) :
    runUpdate s tn .ok tables =
      (.json 200 (.tableUpdated (updatedMsg tn s) tn s),
        updateRows tables tn s) := by
  obtain ⟨r, hr, hrt⟩ := hfound
  have hfil : ({ r with status := s } : TableRow)
      ∈ (updateRows tables tn s).filter fun x => x.table_number == tn :=
    List.mem_filter.mpr ⟨mem_updateRows_of_mem hr hrt, by simp [hrt]⟩
  simp only [runUpdate]
  cases hfl : (updateRows tables tn s).filter fun x => x.table_number == tn with
  | nil =>
    rw [hfl] at hfil
    exact absurd hfil (List.not_mem_nil _)
  | cons row rest =>
    have hrowmem : row
        ∈ (updateRows tables tn s).filter fun x => x.table_number == tn := by
      rw [hfl]
      exact List.mem_cons_self row rest
    obtain ⟨hrow_up, hrow_tn⟩ := List.mem_filter.mp hrowmem
    have htn : row.table_number = tn := by simpa using hrow_tn
    have hst : row.status = s := updateRows_matched_status hrow_up htn
    simp [htn, hst]

/-- A successful connection with no matching row produces the 404
response and leaves the row set unchanged. -/
theorem runUpdate_notfound (tables : List TableRow) (tn : Int) (s : String)
    (hnone : ∀ r ∈ tables, r.table_number ≠ tn) :
    runUpdate s tn .ok tables
      = (.json 404 (.error (notFoundMsg tn)), tables) := by
  have hfr := updateRows_frame tables tn s hnone
  simp only [runUpdate]
  rw [updateRows_filter_nil tables tn s hnone]
  simp [hfr]

/-- Whatever the RETURNING set, a successful connection commits exactly
the updated row set. -/
theorem runUpdate_ok_snd (tables : List TableRow) (tn : Int) (s : String) :
    (runUpdate s tn .ok tables).2 = updateRows tables tn s := by
  simp only [runUpdate]
  cases ((updateRows tables tn s).filter fun r => r.table_number == tn).head?
    <;> rfl

/-! Helper lemmas about the gate and the handler's validation prefix. -/

/-- When the second header segment is a nonempty token that decodes to a
payload carrying both claims, the gate forwards to the wrapped handler. -/
theorem gate_forwards {decode : String → JwtOutcome} {h tok : String}
    {claims : List (String × JsonVal)} {uid role : JsonVal}
    (hsplit : extractToken h = some tok) (htok : tok ≠ "")
    (hdec : decode tok = .ok claims)
    (huid : lookupClaim claims "user_id" = some uid)
    (hrole : lookupClaim claims "role" = some role) :
    token_required decode (some h) = .handler uid role := by
  simp only [token_required]
  rw [hsplit]
  simp [htok, hdec, huid, hrole]

/-- A role string of waiter or admin passes the role check. -/
theorem role_allowed {r : String} (hr : r = "waiter" ∨ r = "admin") :
    JsonVal.str r = JsonVal.str "waiter"
      ∨ JsonVal.str r = JsonVal.str "admin" := by
  rcases hr with h | h
  · exact Or.inl (by rw [h])
  · exact Or.inr (by rw [h])

/-- Every allowed status string is truthy. -/
theorem allowed_not_falsy {s : String} (hs : s ∈ allowed_statuses) :
    (JsonVal.str s).falsy = false := by
  simp only [allowed_statuses, List.mem_cons, List.not_mem_nil, or_false]
    at hs
  rcases hs with rfl | rfl | rfl | rfl <;> decide

/-- With an authorized role and a valid status string, the handler
reduces to the storage interaction. -/
theorem update_table_status_valid {r s : String}
    (hr : r = "waiter" ∨ r = "admin") (hs : s ∈ allowed_statuses)
    (tn : Int) (db : DbEvent) (tables : List TableRow) :
    update_table_status (.str r) (some (.str s)) tn db tables
      = runUpdate s tn db tables := by
  simp only [update_table_status]
  rw [if_pos (role_allowed hr)]
  simp [allowed_not_falsy hs, hs]

/-! Claim C1. -/

/-- C1: for a request with a valid token whose role is waiter or admin, a
status in the allowed set, and a table number with an existing row, the
handler persists the requested status through the single
UPDATE-RETURNING statement and returns 200 with a body whose table number
equals the matched row's table number and whose status equals the
requested status, exactly the persisted row. -/
theorem C1_successful_update_reflects_persisted_row
    (decode : String → JwtOutcome) (h tok : String)
    (claims : List (String × JsonVal)) (uid : JsonVal) (r s : String)
    (tn : Int) (tables : List TableRow)
    (hsplit : extractToken h = some tok) (htok : tok ≠ "")
    (hdec : decode tok = .ok claims)
    (huid : lookupClaim claims "user_id" = some uid)
    (hrole : lookupClaim claims "role" = some (.str r))
    (hr : r = "waiter" ∨ r = "admin") (hs : s ∈ allowed_statuses)
    (hex : ∃ row ∈ tables, row.table_number = tn) :
    handle_update_table_status decode (some h) (some (.str s)) tn .ok tables
      = (.json 200 (.tableUpdated (updatedMsg tn s) tn s),
          updateRows tables tn s)
    ∧ ∀ row ∈ updateRows tables tn s, row.table_number = tn →
        row.status = s := by
  constructor
  · have hg := gate_forwards hsplit htok hdec huid hrole
    simp only [handle_update_table_status, hg]
    rw [update_table_status_valid hr hs]
    exact runUpdate_found tables tn s hex
  · exact fun row hrow htn => updateRows_matched_status hrow htn

/-- Witness for C1: a waiter token updates table 3 to occupied against a
two-row table set. -/
theorem C1_witness :
    handle_update_table_status decodeSample (some "Bearer waiterTok")
        (some (.str "occupied")) 3 .ok
        [⟨3, "available"⟩, ⟨4, "reserved"⟩]
      = (.json 200 (.tableUpdated (updatedMsg 3 "occupied") 3 "occupied"),
          updateRows [⟨3, "available"⟩, ⟨4, "reserved"⟩] 3 "occupied") :=
  (C1_successful_update_reflects_persisted_row decodeSample
    "Bearer waiterTok" "waiterTok"
    [("user_id", .num 1), ("role", .str "waiter")] (.num 1) "waiter"
    "occupied" 3 [⟨3, "available"⟩, ⟨4, "reserved"⟩] (by decide) (by decide)
    (by decide) (by decide) (by decide) (Or.inl rfl) (by decide)
    (by decide)).1

/-! Claim C2. -/

/-- C2 counterexample: the empty string is a present status value outside
the allowed set, yet an authorized request carrying it is answered with
the status-required error, not the invalid-status error the claim
requires. -/
theorem C2_empty_status_gets_required_error :
    update_table_status (.str "waiter") (some (.str "")) 3 .ok
        [⟨3, "available"⟩]
      = (.json 400 (.error "Status is required"), [⟨3, "available"⟩])
    ∧ "Status is required" ≠ invalidStatusMsg := by
  exact ⟨rfl, by decide⟩

/-- C2 (amended): an absent status key or a falsy status value yields the
400 status-required error; a present, truthy status value outside the
allowed set yields the 400 invalid-status error whose message enumerates
the valid set; in every case the table set is unchanged and the storage
outcome is irrelevant. -/
theorem C2_status_validation (r : String) (v w : JsonVal) (tn : Int)
    (db : DbEvent) (tables : List TableRow)
    (hr : r = "waiter" ∨ r = "admin") (hv : v.falsy = true)
    (hw : w.falsy = false)
    (hwm : ∀ s : String, w = .str s → s ∉ allowed_statuses) :
    update_table_status (.str r) none tn db tables
      = (.json 400 (.error "Status is required"), tables)
    ∧ update_table_status (.str r) (some v) tn db tables
      = (.json 400 (.error "Status is required"), tables)
    ∧ update_table_status (.str r) (some w) tn db tables
      = (.json 400 (.error invalidStatusMsg), tables) := by
  refine ⟨?_, ?_, ?_⟩
  · simp only [update_table_status]
    rw [if_pos (role_allowed hr)]
  · simp only [update_table_status]
    rw [if_pos (role_allowed hr)]
    simp [hv]
  · simp only [update_table_status]
    rw [if_pos (role_allowed hr)]
    cases w with
    | null => simp [JsonVal.falsy] at hw
    | str s =>
      have hmem : s ∉ allowed_statuses := hwm s rfl
      simp [hw, hmem]
    | num n => simp [hw]
    | bool b => simp [hw]

/-- Witness for C2 (amended): an absent key, a false value, and the
string pending each get the stated 400 response. -/
theorem C2_witness :
    update_table_status (.str "waiter") none 3 .ok [⟨3, "available"⟩]
      = (.json 400 (.error "Status is required"), [⟨3, "available"⟩])
    ∧ update_table_status (.str "waiter") (some (.bool false)) 3 .ok
        [⟨3, "available"⟩]
      = (.json 400 (.error "Status is required"), [⟨3, "available"⟩])
    ∧ update_table_status (.str "waiter") (some (.str "pending")) 3 .ok
        [⟨3, "available"⟩]
      = (.json 400 (.error invalidStatusMsg), [⟨3, "available"⟩]) :=
  C2_status_validation "waiter" (.bool false) (.str "pending") 3 .ok
    [⟨3, "available"⟩] (Or.inl rfl) (by decide) (by decide)
    (fun s hs => by injection hs with hh; subst hh; decide)

/-! Claim C3. -/

/-- C3 counterexample: a one-word Authorization header, which lacks any
token segment after the scheme word, makes the token extraction raise an
unhandled IndexError; the response is not a 401 at all. -/
theorem C3_single_word_header_crashes :
    (handle_update_table_status decodeSample (some "Bearer")
        (some (.str "available")) 3 .ok [⟨3, "available"⟩]).1
      = .pyError "IndexError"
    ∧ Response.statusCode (.pyError "IndexError") ≠ some 401 := by
  exact ⟨rfl, by decide⟩

/-- C3 (amended): a missing Authorization header, or a header whose
second space-separated segment is empty, is rejected with the 401
missing-token response; a header with fewer than two space-separated
segments instead dies with an unhandled IndexError; in all three cases
the wrapped handler never runs and the table set is unchanged. -/
theorem C3_missing_header_or_token (decode : String → JwtOutcome)
    (sf : Option JsonVal) (tn : Int) (db : DbEvent)
    (tables : List TableRow) (h1 h2 : String)
    (he : extractToken h1 = some "") (hn : extractToken h2 = none) :
    handle_update_table_status decode none sf tn db tables
      = (.json 401 (.message "Token is missing!"), tables)
    ∧ handle_update_table_status decode (some h1) sf tn db tables
      = (.json 401 (.message "Token is missing!"), tables)
    ∧ handle_update_table_status decode (some h2) sf tn db tables
      = (.pyError "IndexError", tables) := by
  refine ⟨rfl, ?_, ?_⟩
  · simp only [handle_update_table_status, token_required]
    rw [he]
    simp
  · simp only [handle_update_table_status, token_required]
    rw [hn]

/-- Witness for C3 (amended): no header, a header ending in a space, and
a bare one-word header. -/
theorem C3_witness :
    handle_update_table_status decodeSample none (some (.str "available"))
        3 .ok [⟨3, "available"⟩]
      = (.json 401 (.message "Token is missing!"), [⟨3, "available"⟩])
    ∧ handle_update_table_status decodeSample (some "Bearer ")
        (some (.str "available")) 3 .ok [⟨3, "available"⟩]
      = (.json 401 (.message "Token is missing!"), [⟨3, "available"⟩])
    ∧ handle_update_table_status decodeSample (some "Bearer")
        (some (.str "available")) 3 .ok [⟨3, "available"⟩]
      = (.pyError "IndexError", [⟨3, "available"⟩]) :=
  C3_missing_header_or_token decodeSample (some (.str "available")) 3 .ok
    [⟨3, "available"⟩] "Bearer " "Bearer" (by decide) (by decide)

/-! Claim C4. -/

/-- C4 counterexample: when obtaining the database connection itself
fails, the rollback attempt dereferences None and the handler dies with
an unhandled AttributeError instead of returning the generic 500
storage-failure body. -/
theorem C4_connect_failure_crashes :
    (update_table_status (.str "waiter") (some (.str "occupied")) 3
        .connectFail [⟨3, "available"⟩]).1 = .pyError "AttributeError"
    ∧ Response.pyError "AttributeError" ≠ .json 500 (.error dbErrorMsg) := by
  exact ⟨rfl, by decide⟩

/-- C4 (amended): a storage failure raised on an established connection
rolls the transaction back and is answered with the fixed generic 500
storage-failure body, which carries no driver detail; the table set is
unchanged. -/
theorem C4_exec_failure_rolls_back (r s : String) (tn : Int)
    (tables : List TableRow) (hr : r = "waiter" ∨ r = "admin")
    (hs : s ∈ allowed_statuses) :
    update_table_status (.str r) (some (.str s)) tn .execFail tables
      = (.json 500 (.error dbErrorMsg), tables) := by
  rw [update_table_status_valid hr hs]
  rfl

/-- Witness for C4 (amended): an execution failure while a waiter updates
table 3. -/
theorem C4_witness :
    update_table_status (.str "waiter") (some (.str "occupied")) 3
        .execFail [⟨3, "available"⟩]
      = (.json 500 (.error dbErrorMsg), [⟨3, "available"⟩]) :=
  C4_exec_failure_rolls_back "waiter" "occupied" 3 [⟨3, "available"⟩]
    (Or.inl rfl) (by decide)

/-! Claim C5. -/

/-- C5: with an authorized role and a valid status but a table number
matching no row, the handler returns the 404 not-found response and the
table set is unchanged. -/
theorem C5_not_found_leaves_tables (r s : String) (tn : Int)
    (tables : List TableRow) (hr : r = "waiter" ∨ r = "admin")
    (hs : s ∈ allowed_statuses)
    (hnone : ∀ row ∈ tables, row.table_number ≠ tn) :
    update_table_status (.str r) (some (.str s)) tn .ok tables
      = (.json 404 (.error (notFoundMsg tn)), tables) := by
  rw [update_table_status_valid hr hs]
  exact runUpdate_notfound tables tn s hnone

/-- Witness for C5: an admin updates nonexistent table 999. -/
theorem C5_witness :
    update_table_status (.str "admin") (some (.str "available")) 999 .ok
        [⟨1, "available"⟩, ⟨2, "occupied"⟩]
      = (.json 404 (.error (notFoundMsg 999)),
          [⟨1, "available"⟩, ⟨2, "occupied"⟩]) :=
  C5_not_found_leaves_tables "admin" "available" 999
    [⟨1, "available"⟩, ⟨2, "occupied"⟩] (Or.inr rfl) (by decide)
    (by decide)

/-! Claim C6. -/

/-- C6: a request carrying a valid, unexpired token whose role claim is
neither waiter nor admin is answered with the 403 unauthorized response —
a status code distinct from the 401 of the unauthenticated rejections —
for every request body and every storage outcome, and the table set is
untouched. -/
theorem C6_wrong_role_forbidden (decode : String → JwtOutcome)
    (h tok : String) (claims : List (String × JsonVal))
    (uid role : JsonVal) (sf : Option JsonVal) (tn : Int) (db : DbEvent)
    (tables : List TableRow)
    (hsplit : extractToken h = some tok) (htok : tok ≠ "")
    (hdec : decode tok = .ok claims)
    (huid : lookupClaim claims "user_id" = some uid)
    (hrole : lookupClaim claims "role" = some role)
    (hw : role ≠ .str "waiter") (ha : role ≠ .str "admin") :
    handle_update_table_status decode (some h) sf tn db tables
      = (.json 403 (.error
          "Unauthorized: Only waiters or admins can update table status"),
          tables)
    ∧ (403 : Nat) ≠ 401 := by
  refine ⟨?_, by decide⟩
  have hg := gate_forwards hsplit htok hdec huid hrole
  simp only [handle_update_table_status, hg, update_table_status]
  rw [if_neg (not_or.mpr ⟨hw, ha⟩)]

/-- Witness for C6: a chef token is rejected with 403. -/
theorem C6_witness :
    handle_update_table_status decodeSample (some "Bearer chefTok")
        (some (.str "occupied")) 3 .ok [⟨3, "available"⟩]
      = (.json 403 (.error
          "Unauthorized: Only waiters or admins can update table status"),
          [⟨3, "available"⟩])
    ∧ (403 : Nat) ≠ 401 :=
  C6_wrong_role_forbidden decodeSample "Bearer chefTok" "chefTok"
    [("user_id", .num 3), ("role", .str "chef")] (.num 3) (.str "chef")
    (some (.str "occupied")) 3 .ok [⟨3, "available"⟩] (by decide)
    (by decide) (by decide) (by decide) (by decide) (by decide)
    (by decide)

/-! Claim C7. -/

/-- C7: a token whose signature verifies but whose expiry has passed is
rejected with the 401 expired response, a malformed or badly signed token
with the 401 invalid-token response, and the two bodies differ. -/
theorem C7_expired_distinct_from_invalid (decode : String → JwtOutcome)
    (h1 h2 tok1 tok2 : String) (sf : Option JsonVal) (tn : Int)
    (db : DbEvent) (tables : List TableRow)
    (hs1 : extractToken h1 = some tok1) (ht1 : tok1 ≠ "")
    (hd1 : decode tok1 = .expired)
    (hs2 : extractToken h2 = some tok2) (ht2 : tok2 ≠ "")
    (hd2 : decode tok2 = .invalid) :
    handle_update_table_status decode (some h1) sf tn db tables
      = (.json 401 (.message "Token has expired!"), tables)
    ∧ handle_update_table_status decode (some h2) sf tn db tables
      = (.json 401 (.message "Invalid Token!"), tables)
    ∧ RespBody.message "Token has expired!"
        ≠ .message "Invalid Token!" := by
  refine ⟨?_, ?_, by decide⟩
  · simp only [handle_update_table_status, token_required]
    rw [hs1]
    simp [ht1, hd1]
  · simp only [handle_update_table_status, token_required]
    rw [hs2]
    simp [ht2, hd2]

/-- Witness for C7: the sample expired token and a garbage token. -/
theorem C7_witness :
    handle_update_table_status decodeSample (some "Bearer oldTok")
        (some (.str "occupied")) 3 .ok [⟨3, "available"⟩]
      = (.json 401 (.message "Token has expired!"), [⟨3, "available"⟩])
    ∧ handle_update_table_status decodeSample (some "Bearer garbage")
        (some (.str "occupied")) 3 .ok [⟨3, "available"⟩]
      = (.json 401 (.message "Invalid Token!"), [⟨3, "available"⟩])
    ∧ RespBody.message "Token has expired!"
        ≠ .message "Invalid Token!" :=
  C7_expired_distinct_from_invalid decodeSample "Bearer oldTok"
    "Bearer garbage" "oldTok" "garbage" (some (.str "occupied")) 3 .ok
    [⟨3, "available"⟩] (by decide) (by decide) (by decide) (by decide)
    (by decide) (by decide)

/-! Claim C8. -/

/-- C8: a status update with an authorized role and a valid status
commits exactly the pointwise-updated row set: it preserves the list
length, and every position holding a row with a different table number
still holds exactly the original row afterwards. -/
theorem C8_update_frames_other_rows (r s : String) (tn : Int)
    (tables : List TableRow) (hr : r = "waiter" ∨ r = "admin")
    (hs : s ∈ allowed_statuses) :
    (update_table_status (.str r) (some (.str s)) tn .ok tables).2
      = updateRows tables tn s
    ∧ (updateRows tables tn s).length = tables.length
    ∧ ∀ (i : ℕ) (hi : i < tables.length),
        (tables.get ⟨i, hi⟩).table_number ≠ tn →
        (updateRows tables tn s).get? i = some (tables.get ⟨i, hi⟩) := by
  refine ⟨?_, ?_, ?_⟩
  · rw [update_table_status_valid hr hs]
    exact runUpdate_ok_snd tables tn s
  · simp [updateRows]
  · intro i hi hne
    simp only [updateRows]
    rw [List.get?_eq_getElem?, List.getElem?_map, List.getElem?_eq_getElem hi]
    have hb : ((tables.get ⟨i, hi⟩).table_number == tn) = false :=
      beq_eq_false_iff_ne.mpr hne
    simp [hb]
    intro hcon
    exact absurd hcon hne

/-- Witness for C8: updating table 2 leaves the rows at positions 0 and 2
exactly as they were. -/
theorem C8_witness :
    (update_table_status (.str "admin") (some (.str "cleaning")) 2 .ok
        [⟨1, "available"⟩, ⟨2, "occupied"⟩, ⟨3, "reserved"⟩]).2
      = updateRows [⟨1, "available"⟩, ⟨2, "occupied"⟩, ⟨3, "reserved"⟩]
          2 "cleaning" :=
  (C8_update_frames_other_rows "admin" "cleaning" 2
    [⟨1, "available"⟩, ⟨2, "occupied"⟩, ⟨3, "reserved"⟩] (Or.inr rfl)
    (by decide)).1

/-! Claim C9. -/

/-- C9: the gate takes the second space-separated part of the
Authorization header as the token without checking that the first part is
the literal Bearer: whenever that part decodes (by a decoder that rejects
the empty string, as jwt.decode does) to a payload carrying the user-id
and role claims, the gate forwards to the wrapped handler with those
claims, so the endpoint behaves exactly as the handler run with that
role. -/
theorem C9_second_segment_taken_as_token (decode : String → JwtOutcome)
    (h tok : String) (claims : List (String × JsonVal))
    (uid role : JsonVal) (sf : Option JsonVal) (tn : Int) (db : DbEvent)
    (tables : List TableRow)
    (hsplit : (pySplitSpace h).get? 1 = some tok)
    (hempty : decode "" = .invalid) (hdec : decode tok = .ok claims)
    (huid : lookupClaim claims "user_id" = some uid)
    (hrole : lookupClaim claims "role" = some role) :
    token_required decode (some h) = .handler uid role
    ∧ handle_update_table_status decode (some h) sf tn db tables
      = update_table_status role sf tn db tables := by
  have htok : tok ≠ "" := by
    intro hrfl
    subst hrfl
    rw [hempty] at hdec
    cases hdec
  have hg := gate_forwards hsplit htok hdec huid hrole
  exact ⟨hg, by simp only [handle_update_table_status, hg]⟩

/-- Witness for C9: a scheme word other than Bearer is accepted and the
admin handler runs. -/
theorem C9_witness :
    token_required decodeSample (some "Token adminTok")
      = .handler (.num 2) (.str "admin") :=
  (C9_second_segment_taken_as_token decodeSample "Token adminTok"
    "adminTok" [("user_id", .num 2), ("role", .str "admin")] (.num 2)
    (.str "admin") (some (.str "available")) 3 .ok [] (by decide)
    (by decide) (by decide) (by decide) (by decide)).1

/-! Claim C10. -/

/-- C10: an authorized request whose status value is falsy — the empty
string, zero, false, or null — is answered with the 400 status-required
response, identical, final state included, to the response for an absent
status key, for every storage outcome. -/
theorem C10_falsy_status_is_required_error (r : String) (v : JsonVal)
    (tn : Int) (db : DbEvent) (tables : List TableRow)
    (hr : r = "waiter" ∨ r = "admin") (hv : v.falsy = true) :
    update_table_status (.str r) (some v) tn db tables
      = (.json 400 (.error "Status is required"), tables)
    ∧ update_table_status (.str r) (some v) tn db tables
      = update_table_status (.str r) none tn db tables := by
  have hsome : update_table_status (.str r) (some v) tn db tables
      = (.json 400 (.error "Status is required"), tables) := by
    simp only [update_table_status]
    rw [if_pos (role_allowed hr)]
    simp [hv]
  have hnone : update_table_status (.str r) none tn db tables
      = (.json 400 (.error "Status is required"), tables) := by
    simp only [update_table_status]
    rw [if_pos (role_allowed hr)]
  exact ⟨hsome, hsome.trans hnone.symm⟩

/-- Witness for C10: the empty-string status behaves as the absent key. -/
theorem C10_witness :
    update_table_status (.str "waiter") (some (.str "")) 3 .ok
        [⟨3, "available"⟩]
      = (.json 400 (.error "Status is required"), [⟨3, "available"⟩])
    ∧ update_table_status (.str "waiter") (some (.str "")) 3 .ok
        [⟨3, "available"⟩]
      = update_table_status (.str "waiter") none 3 .ok
          [⟨3, "available"⟩] :=
  C10_falsy_status_is_required_error "waiter" (.str "") 3 .ok
    [⟨3, "available"⟩] (Or.inl rfl) (by decide)

end FoodOrdering
